import Mathlib

/-!
Shallow embedding of the XclockDAC audio clock driver stack:
  * `drivers/clk/clk-xclockdac.c` — rate table, register shadow, round/set/recalc ops
  * `sound/soc/bcm/xclockdac.c` — machine driver rate constraints and probe
  * `sound/soc/codecs/tda1541a.c` — codec rate constraints and hw_params

Machine integers are modelled as `Nat`/`Int`; the opaque register transport
(regmap) is modelled by passing its return code as an explicit input; driver
state mutation is explicit state passing.
-/

/-- Linux errno value EINVAL (22). Driver code returns `-EINVAL`. -/
def EINVAL : Int := 22

/-- Linux errno value ENODEV (19). Driver code returns `-ENODEV`. -/
def ENODEV : Int := 19

/-- Linux errno value EPROBE_DEFER (517): transient, probe retried later. -/
def EPROBE_DEFER : Int := 517

namespace ClkXclockdac

/-- One row of the clock driver's rate table: output frequency in Hz and the
8-bit register code selecting it (`struct xclockdac_rate`). -/
structure XclockdacRate where
  out : Nat
  reg_value : Nat
  deriving DecidableEq, Repr

/-- The clock driver's rate table `xclockdac_rates[]`, in source order
(increasing frequency). The C sentinel terminator `{}` is modelled by the end
of the list. -/
def xclockdac_rates : List XclockdacRate :=
  [⟨11025, 0b00000100⟩, ⟨22050, 0b00001100⟩, ⟨44100, 0b00000011⟩,
   ⟨48000, 0b00001011⟩, ⟨88200, 0b00000010⟩, ⟨96000, 0b00001010⟩,
   ⟨176400, 0b00000001⟩, ⟨192000, 0b00001001⟩]

/-- The table's frequency column, i.e. the set of supported rates. -/
def tableFreqs : List Nat := xclockdac_rates.map (fun e => e.out)

/-- Driver state `struct clk_xclockdac_drvdata`, reduced to the field the
clock ops touch: `reg_value`, the shadow of the device register. -/
structure Drvdata where
  reg_value : Nat
  deriving DecidableEq, Repr

/-- Result of a driver operation: the updated driver state, the C return
code, and the list of register values actually issued to the transport
(so "performs no register write" is expressible). -/
structure OpResult where
  drv : Drvdata
  ret : Int
  writes : List Nat
  deriving DecidableEq, Repr

/-- The scan in `xclockdac_set_rate`: walk the table until an entry whose
`out` equals the requested rate; `none` models stopping at the sentinel. -/
def findRate : List XclockdacRate → Nat → Option XclockdacRate
  | [], _ => none
  | ⟨out, code⟩ :: rest, rate =>
      if out = rate then some ⟨out, code⟩ else findRate rest rate

/-- The scan in `xclockdac_recalc_rate`: walk the table until an entry whose
`reg_value` equals the shadow value, returning its frequency. -/
def findCode : List XclockdacRate → Nat → Option Nat
  | [], _ => none
  | ⟨out, code⟩ :: rest, v =>
      if v = code then some out else findCode rest v

/-- `xclockdac_write_reg`: updates the shadow `reg_value` FIRST, then issues
the transport write (whose return code `writeRet` is an input, the transport
being an opaque collaborator), and returns `writeRet` if negative else 0.
Mirrors the source exactly: the shadow assignment precedes `regmap_write`. -/
def xclockdac_write_reg (_d : Drvdata) (value : Nat) (writeRet : Int) :
    OpResult :=
  { drv := { reg_value := value },
    ret := if writeRet < 0 then writeRet else 0,
    writes := [value] }

/-- `xclockdac_set_rate`: exact table lookup of the requested rate; on a miss
return `-EINVAL` without touching state or the bus; on a hit delegate to
`xclockdac_write_reg` with the entry's code. -/
def xclockdac_set_rate (d : Drvdata) (rate : Nat) (writeRet : Int) :
    OpResult :=
  match findRate xclockdac_rates rate with
  | none => { drv := d, ret := -EINVAL, writes := [] }
  | some e => xclockdac_write_reg d e.reg_value writeRet

/-- `xclockdac_recalc_rate`: reverse-look-up the shadow code in the table;
return the matching frequency, or 0 when the code is not in the table. -/
def xclockdac_recalc_rate (d : Drvdata) : Nat :=
  (findCode xclockdac_rates d.reg_value).getD 0

/-- The loop of `xclockdac_round_rate`: `prev` is the last entry already
passed (frequency below the request), `none` before the first iteration.
Reaching the end of the list models reaching the C sentinel, where the
source returns `prev->out` (the `none` case cannot arise for the non-empty
table; 0 stands for the C's undefined dereference there). -/
def roundLoop : List XclockdacRate → Option Nat → Nat → Nat
  | [], none, _ => 0
  | [], some p, _ => p
  | ⟨out, _⟩ :: rest, prev, rate =>
      if out = rate then rate
      else if out > rate then
        match prev with
        | none => out
        | some p => if p + (out - p) / 2 > rate then p else out
      else roundLoop rest (some out) rate

/-- `xclockdac_round_rate`: nearest supported rate, per the source's scan. -/
def xclockdac_round_rate (rate : Nat) : Nat :=
  roundLoop xclockdac_rates none rate

/-- DEFAULT_RATE from the clock driver (44100 Hz). -/
def DEFAULT_RATE : Nat := 44100

/-- Inputs to `xclockdac_i2c_probe` that the claims depend on: the return
code and value of the initial `regmap_read` of the register, and the
transport return code for the default-rate register write. The earlier
devm allocation/registration steps are assumed successful (glue). -/
structure I2cProbeEnv where
  regmap_read_ret : Int
  regmap_read_val : Nat
  regmap_write_ret : Int
  deriving DecidableEq, Repr

/-- Tail of `xclockdac_i2c_probe` from the initial register read-back on:
on read failure return that error; otherwise store the read byte as the
shadow, then `clk_set_rate(clk, DEFAULT_RATE)` — which the clk framework
routes to `xclockdac_set_rate` (after `round_rate`, the identity on the
exact table entry 44100) — and on a nonzero result return `-EINVAL`,
failing the probe. Returns the final driver state (none when probe fails
before the state exists) and the probe return code. -/
def xclockdac_i2c_probe (env : I2cProbeEnv) : Option Drvdata × Int :=
  if env.regmap_read_ret < 0 then (none, env.regmap_read_ret)
  else
    let d : Drvdata := { reg_value := env.regmap_read_val }
    let r := xclockdac_set_rate d DEFAULT_RATE env.regmap_write_ret
    if r.ret ≠ 0 then (some r.drv, -EINVAL) else (some r.drv, 0)

end ClkXclockdac

namespace SndRpiXclockdac

/-- The machine driver's rate array `xclockdac_rates[]`
(`sound/soc/bcm/xclockdac.c`), used for the hw constraint list. -/
def xclockdac_rates : List Nat :=
  [11025, 22050, 44100, 48000, 88200, 96000, 176400, 192000]

/-- DEFAULT_RATE from the machine driver (44100 Hz). -/
def DEFAULT_RATE : Nat := 44100

/-- `snd_rpi_xclockdac_startup`: installs `xclockdac_constraints` (whose
`.list` is `xclockdac_rates` and `.count` its full length) on the substream
runtime's RATE parameter and returns 0. Modelled as the installed rate list
paired with the return code. -/
def snd_rpi_xclockdac_startup : List Nat × Int :=
  (xclockdac_rates, 0)

/-- Inputs to `snd_rpi_xclockdac_probe` that the claims depend on:
whether `pdev->dev.of_node` is present, whether `of_parse_phandle` finds the
`i2s-controller` node, the result of `devm_snd_soc_register_card`, and the
`devm_clk_get` outcome (`some e` when `IS_ERR` with error `e`, including the
transient `-EPROBE_DEFER` when the clock provider is not yet registered;
`none` on success). The ignored `clk_set_rate` result is not an input. -/
structure ProbeEnv where
  of_node : Bool
  i2s_node : Bool
  register_card_ret : Int
  clk_get_err : Option Int
  deriving DecidableEq, Repr

/-- `snd_rpi_xclockdac_probe`, branch for branch from the source:
with an of_node but no i2s-controller phandle, return `-EPROBE_DEFER`;
a card-registration error other than `-EPROBE_DEFER` is returned as is;
`-EPROBE_DEFER` from card registration is returned; a missing device-tree
node yields `-ENODEV`; any `devm_clk_get` failure yields `-ENODEV`;
otherwise `clk_set_rate(sclk, DEFAULT_RATE)` runs (result ignored) and the
probe returns 0. -/
def snd_rpi_xclockdac_probe (env : ProbeEnv) : Int :=
  if env.of_node && !env.i2s_node then -EPROBE_DEFER
  else if env.register_card_ret ≠ 0 ∧ env.register_card_ret ≠ -EPROBE_DEFER then
    env.register_card_ret
  else if env.register_card_ret = -EPROBE_DEFER then -EPROBE_DEFER
  else if !env.of_node then -ENODEV
  else
    match env.clk_get_err with
    | some _ => -ENODEV
    | none => 0

end SndRpiXclockdac

namespace Tda1541a

/-- The codec's rate array `tda1541a_dai_rates[]`
(`sound/soc/codecs/tda1541a.c`), used for `dai_constraints`. -/
def tda1541a_dai_rates : List Nat :=
  [11025, 22050, 44100, 48000, 88200, 96000, 176400, 192000]

/-- `tda1541a_startup`: installs `dai_constraints` (list `tda1541a_dai_rates`,
full count) on the substream runtime's RATE parameter, returning the result
of `snd_pcm_hw_constraint_list` (0 on the success path modelled here). -/
def tda1541a_startup : List Nat × Int :=
  (tda1541a_dai_rates, 0)

/-- Codec private data `struct tda1541a_private`: the last committed rate. -/
structure Tda1541aPrivate where
  rate : Nat
  deriving DecidableEq, Repr

/-- `tda1541a_hw_params`: stores the negotiated rate into the private data,
then switches on the sample width: 16 is accepted (return 0), every other
width returns `-EINVAL`. Mirrors the source, where `priv->rate` is assigned
before the width check. -/
def tda1541a_hw_params (priv : Tda1541aPrivate) (rate width : Nat) :
    Tda1541aPrivate × Int :=
  let priv2 : Tda1541aPrivate := { priv with rate := rate }
  if width = 16 then (priv2, 0) else (priv2, -EINVAL)

/-- TDA1541A_FORMATS: the DAI advertises only S16_LE, i.e. the sole
permitted sample width in bits is 16. -/
def tda1541a_formats_width_bits : List Nat := [16]

end Tda1541a

open ClkXclockdac

/-- Unfolding: the scan past the last table entry returns the previous
entry's frequency (the source's final `return prev->out`). -/
theorem roundLoop_nil_some (p rate : Nat) : roundLoop [] (some p) rate = p := rfl

/-- Unfolding of `roundLoop` at a cons cell before any entry was passed. -/
theorem roundLoop_cons_none (out code : Nat) (rest : List XclockdacRate)
    (rate : Nat) :
    roundLoop (⟨out, code⟩ :: rest) none rate =
      if out = rate then rate
      else if out > rate then out
      else roundLoop rest (some out) rate := rfl

/-- Unfolding of `roundLoop` at a cons cell with a previous entry `p`. -/
theorem roundLoop_cons_some (out code p : Nat) (rest : List XclockdacRate)
    (rate : Nat) :
    roundLoop (⟨out, code⟩ :: rest) (some p) rate =
      if out = rate then rate
      else if out > rate then (if p + (out - p) / 2 > rate then p else out)
      else roundLoop rest (some out) rate := rfl

/-- An entry whose frequency is below the request is skipped, becoming the
new `prev`. -/
theorem roundLoop_cons_skip (out code rate : Nat) (rest : List XclockdacRate)
    (prev : Option Nat) (h : out < rate) :
    roundLoop (⟨out, code⟩ :: rest) prev rate = roundLoop rest (some out) rate := by
  cases prev with
  | none => rw [roundLoop_cons_none, if_neg (by omega), if_neg (by omega)]
  | some p => rw [roundLoop_cons_some, if_neg (by omega), if_neg (by omega)]

/-- Adjacent pairs of supported frequencies, in table order. -/
def adjacentFreqPairs : List (Nat × Nat) := tableFreqs.zip tableFreqs.tail

/-- Claim C4: for every requested rate strictly between two adjacent table
frequencies `p` and `c`, `xclockdac_round_rate` returns `p` exactly when
`p + (c - p) / 2` (floor division) exceeds the request, and `c` otherwise;
in particular the exact midpoint goes to the higher neighbor, so
`round(16537) = 22050`. -/
theorem round_rate_between_neighbors :
    (∀ p c, (p, c) ∈ adjacentFreqPairs → ∀ rate, p < rate → rate < c →
      xclockdac_round_rate rate = if p + (c - p) / 2 > rate then p else c) ∧
    xclockdac_round_rate 16537 = 22050 := by
  constructor
  · intro p c hmem rate h1 h2
    have hl : adjacentFreqPairs =
        [(11025, 22050), (22050, 44100), (44100, 48000), (48000, 88200),
         (88200, 96000), (96000, 176400), (176400, 192000)] := rfl
    rw [hl] at hmem
    simp only [List.mem_cons, List.not_mem_nil, or_false, Prod.mk.injEq] at hmem
    rcases hmem with ⟨rfl, rfl⟩ | ⟨rfl, rfl⟩ | ⟨rfl, rfl⟩ | ⟨rfl, rfl⟩ |
      ⟨rfl, rfl⟩ | ⟨rfl, rfl⟩ | ⟨rfl, rfl⟩
    · rw [xclockdac_round_rate, xclockdac_rates,
        roundLoop_cons_skip 11025 _ rate _ _ (by omega),
        roundLoop_cons_some, if_neg (by omega), if_pos (by omega)]
    · rw [xclockdac_round_rate, xclockdac_rates,
        roundLoop_cons_skip 11025 _ rate _ _ (by omega),
        roundLoop_cons_skip 22050 _ rate _ _ (by omega),
        roundLoop_cons_some, if_neg (by omega), if_pos (by omega)]
    · rw [xclockdac_round_rate, xclockdac_rates,
        roundLoop_cons_skip 11025 _ rate _ _ (by omega),
        roundLoop_cons_skip 22050 _ rate _ _ (by omega),
        roundLoop_cons_skip 44100 _ rate _ _ (by omega),
        roundLoop_cons_some, if_neg (by omega), if_pos (by omega)]
    · rw [xclockdac_round_rate, xclockdac_rates,
        roundLoop_cons_skip 11025 _ rate _ _ (by omega),
        roundLoop_cons_skip 22050 _ rate _ _ (by omega),
        roundLoop_cons_skip 44100 _ rate _ _ (by omega),
        roundLoop_cons_skip 48000 _ rate _ _ (by omega),
        roundLoop_cons_some, if_neg (by omega), if_pos (by omega)]
    · rw [xclockdac_round_rate, xclockdac_rates,
        roundLoop_cons_skip 11025 _ rate _ _ (by omega),
        roundLoop_cons_skip 22050 _ rate _ _ (by omega),
        roundLoop_cons_skip 44100 _ rate _ _ (by omega),
        roundLoop_cons_skip 48000 _ rate _ _ (by omega),
        roundLoop_cons_skip 88200 _ rate _ _ (by omega),
        roundLoop_cons_some, if_neg (by omega), if_pos (by omega)]
    · rw [xclockdac_round_rate, xclockdac_rates,
        roundLoop_cons_skip 11025 _ rate _ _ (by omega),
        roundLoop_cons_skip 22050 _ rate _ _ (by omega),
        roundLoop_cons_skip 44100 _ rate _ _ (by omega),
        roundLoop_cons_skip 48000 _ rate _ _ (by omega),
        roundLoop_cons_skip 88200 _ rate _ _ (by omega),
        roundLoop_cons_skip 96000 _ rate _ _ (by omega),
        roundLoop_cons_some, if_neg (by omega), if_pos (by omega)]
    · rw [xclockdac_round_rate, xclockdac_rates,
        roundLoop_cons_skip 11025 _ rate _ _ (by omega),
        roundLoop_cons_skip 22050 _ rate _ _ (by omega),
        roundLoop_cons_skip 44100 _ rate _ _ (by omega),
        roundLoop_cons_skip 48000 _ rate _ _ (by omega),
        roundLoop_cons_skip 88200 _ rate _ _ (by omega),
        roundLoop_cons_skip 96000 _ rate _ _ (by omega),
        roundLoop_cons_skip 176400 _ rate _ _ (by omega),
        roundLoop_cons_some, if_neg (by omega), if_pos (by omega)]
  · decide

/-- Witness for C4: the midpoint 16537 of (11025, 22050) satisfies the
between-neighbors hypothesis, and the general theorem instantiates there to
the tie-break formula, which selects the higher neighbor 22050. -/
theorem round_rate_between_neighbors_witness :
    (11025, 22050) ∈ adjacentFreqPairs ∧
    xclockdac_round_rate 16537 =
      (if 11025 + (22050 - 11025) / 2 > 16537 then 11025 else 22050) :=
  ⟨by decide,
   round_rate_between_neighbors.1 11025 22050 (by decide) 16537
     (by decide) (by decide)⟩

/-- Claim C5: every requested rate below the lowest supported frequency
rounds to 11025 (clamp low), and every requested rate above the highest
supported frequency rounds to 192000 (clamp high). -/
theorem round_rate_clamps :
    (∀ rate : Nat, rate < 11025 → xclockdac_round_rate rate = 11025) ∧
    (∀ rate : Nat, 192000 < rate → xclockdac_round_rate rate = 192000) := by
  constructor
  · intro rate h
    rw [xclockdac_round_rate, xclockdac_rates, roundLoop_cons_none,
      if_neg (by omega), if_pos (by omega)]
  · intro rate h
    rw [xclockdac_round_rate, xclockdac_rates,
      roundLoop_cons_skip 11025 _ rate _ _ (by omega),
      roundLoop_cons_skip 22050 _ rate _ _ (by omega),
      roundLoop_cons_skip 44100 _ rate _ _ (by omega),
      roundLoop_cons_skip 48000 _ rate _ _ (by omega),
      roundLoop_cons_skip 88200 _ rate _ _ (by omega),
      roundLoop_cons_skip 96000 _ rate _ _ (by omega),
      roundLoop_cons_skip 176400 _ rate _ _ (by omega),
      roundLoop_cons_skip 192000 _ rate _ _ (by omega),
      roundLoop_nil_some]

/-- Witness for C5: 5000 (below the table) rounds to 11025 and 500000
(above the table) rounds to 192000. -/
theorem round_rate_clamps_witness :
    xclockdac_round_rate 5000 = 11025 ∧ xclockdac_round_rate 500000 = 192000 :=
  ⟨round_rate_clamps.1 5000 (by decide), round_rate_clamps.2 500000 (by decide)⟩

/-- Invariant of the rounding scan: whenever every remaining entry's
frequency lies in `S`, the carried `prev` frequency (if any) lies in `S`,
and the scan is not starting from the impossible empty-table/no-prev state,
the result lies in `S`. -/
theorem roundLoop_mem (S : List Nat) (l : List XclockdacRate) :
    ∀ (p : Option Nat) (rate : Nat),
      (∀ e ∈ l, e.out ∈ S) → (∀ q, p = some q → q ∈ S) →
      (l ≠ [] ∨ p ≠ none) → roundLoop l p rate ∈ S := by
  induction l with
  | nil =>
    intro p rate _ hp hne
    match p with
    | none => simp at hne
    | some q => exact (roundLoop_nil_some q rate) ▸ hp q rfl
  | cons e rest ih =>
    intro p rate hl hp _
    obtain ⟨out, code⟩ := e
    have hout : out ∈ S := hl ⟨out, code⟩ (List.mem_cons_self _ _)
    have hrest : ∀ e ∈ rest, e.out ∈ S := fun e he => hl e (List.mem_cons_of_mem _ he)
    have hnext : ∀ q, (some out : Option Nat) = some q → q ∈ S := by
      intro q hq
      cases hq
      exact hout
    match p with
    | none =>
      rw [roundLoop_cons_none]
      split_ifs with h1 h2
      · exact h1 ▸ hout
      · exact hout
      · exact ih (some out) rate hrest hnext (Or.inr (by simp))
    | some q =>
      have hq : q ∈ S := hp q rfl
      rw [roundLoop_cons_some]
      split_ifs with h1 h2 h3
      · exact h1 ▸ hout
      · exact hq
      · exact hout
      · exact ih (some out) rate hrest hnext (Or.inr (by simp))

/-- Claim C6: `xclockdac_round_rate` is a total function on all rates — it
never errors, always landing in the supported frequency set — and every one
of the 8 table frequencies is a fixed point. -/
theorem round_rate_total_and_fixed_points :
    (∀ rate : Nat, xclockdac_round_rate rate ∈ tableFreqs) ∧
    (∀ f ∈ tableFreqs, xclockdac_round_rate f = f) := by
  constructor
  · intro rate
    refine roundLoop_mem tableFreqs xclockdac_rates none rate ?_ ?_ (Or.inl ?_)
    · decide
    · intro q hq
      cases hq
    · decide
  · decide

/-- Witness for C6: at the arbitrary input 12345 the result is a supported
frequency, and at the table frequency 44100 rounding is the identity. -/
theorem round_rate_total_and_fixed_points_witness :
    xclockdac_round_rate 12345 ∈ tableFreqs ∧ xclockdac_round_rate 44100 = 44100 :=
  ⟨round_rate_total_and_fixed_points.1 12345,
   round_rate_total_and_fixed_points.2 44100 (by decide)⟩

/-- Claim C7: `xclockdac_recalc_rate` maps every shadow code that occurs in
the table to that entry's frequency, and every code absent from the table to
the sentinel 0, which is not a supported frequency — it reports an
unrecognized rate rather than failing. -/
theorem recalc_rate_table_and_sentinel :
    (∀ e ∈ xclockdac_rates, xclockdac_recalc_rate ⟨e.reg_value⟩ = e.out) ∧
    (∀ v : Nat, findCode xclockdac_rates v = none →
      xclockdac_recalc_rate ⟨v⟩ = 0) ∧
    0 ∉ tableFreqs := by
  refine ⟨by decide, ?_, by decide⟩
  intro v h
  rw [xclockdac_recalc_rate]
  rw [show (Drvdata.mk v).reg_value = v from rfl, h]
  rfl

/-- Witness for C7: the table code for 44100 recalculates to 44100, and the
foreign code 0xFF (absent from the table) recalculates to the sentinel 0. -/
theorem recalc_rate_table_and_sentinel_witness :
    xclockdac_recalc_rate ⟨0b00000011⟩ = 44100 ∧
    findCode xclockdac_rates 0xFF = none ∧
    xclockdac_recalc_rate ⟨0xFF⟩ = 0 :=
  ⟨recalc_rate_table_and_sentinel.1 ⟨44100, 0b00000011⟩ (by decide),
   by decide,
   recalc_rate_table_and_sentinel.2.1 0xFF (by decide)⟩

/-- Claim C1, counterexample: starting with the shadow code for 44100 and a
failing transport write (return -5), `xclockdac_set_rate 48000` returns the
error yet the shadow is no longer its pre-call value — `recalc_rate` now
reports 48000, not 44100. The claim that a failed write leaves `shadow_code`
and the reported rate unchanged is therefore false. -/
theorem set_rate_failed_write_changes_shadow_cex :
    xclockdac_recalc_rate ⟨0b00000011⟩ = 44100 ∧
    (xclockdac_set_rate ⟨0b00000011⟩ 48000 (-5)).ret = -5 ∧
    (xclockdac_set_rate ⟨0b00000011⟩ 48000 (-5)).drv ≠ ⟨0b00000011⟩ ∧
    xclockdac_recalc_rate (xclockdac_set_rate ⟨0b00000011⟩ 48000 (-5)).drv =
      48000 := by
  decide

/-- Claim C1 as amended: on an exact table match, `xclockdac_set_rate`
updates the shadow to the new entry's code BEFORE the transport write, so
when the write fails the error is returned but the shadow (and hence the
reported current rate) already holds the new code, not the pre-call value. -/
theorem set_rate_updates_shadow_before_write :
    ∀ (d : Drvdata) (rate : Nat) (e : XclockdacRate) (wret : Int),
      findRate xclockdac_rates rate = some e → wret < 0 →
      xclockdac_set_rate d rate wret = ⟨⟨e.reg_value⟩, wret, [e.reg_value]⟩ := by
  intro d rate e wret hf hw
  simp only [xclockdac_set_rate, hf, xclockdac_write_reg, if_pos hw]

/-- Witness for amended C1: at shadow 0b11 (44100), requesting 48000 with a
failing write (-5) yields exactly the updated shadow 0b1011, return -5, and
one issued register write. -/
theorem set_rate_updates_shadow_before_write_witness :
    findRate xclockdac_rates 48000 = some ⟨48000, 0b00001011⟩ ∧
    xclockdac_set_rate ⟨0b00000011⟩ 48000 (-5) =
      ⟨⟨0b00001011⟩, -5, [0b00001011]⟩ :=
  ⟨by decide,
   set_rate_updates_shadow_before_write ⟨0b00000011⟩ 48000 ⟨48000, 0b00001011⟩
     (-5) (by decide) (by decide)⟩

/-- Claim C2, counterexample: with a successful initial register read (value
0b11) but a failing default-rate write (-5), `xclockdac_i2c_probe` returns
`-EINVAL` — a nonzero status, so the probe (attach) fails rather than
leaving the device attached. -/
theorem i2c_probe_default_rate_failure_cex :
    (xclockdac_i2c_probe ⟨0, 0b00000011, -5⟩).2 = -EINVAL ∧
    (xclockdac_i2c_probe ⟨0, 0b00000011, -5⟩).2 ≠ 0 := by
  decide

/-- Claim C2 as amended: if applying the default rate (44100) at attach time
fails, the failure is reported upward as `-EINVAL` from the probe, which
therefore fails — the device is not left attached. -/
theorem i2c_probe_default_rate_failure_fatal :
    ∀ env : I2cProbeEnv, 0 ≤ env.regmap_read_ret → env.regmap_write_ret < 0 →
      (xclockdac_i2c_probe env).2 = -EINVAL := by
  intro env h1 h2
  simp only [xclockdac_i2c_probe,
    if_neg (show ¬env.regmap_read_ret < 0 by omega)]
  have hf : findRate xclockdac_rates DEFAULT_RATE = some ⟨44100, 0b00000011⟩ := by
    decide
  simp only [xclockdac_set_rate, hf, xclockdac_write_reg, if_pos h2]
  rw [if_pos (show env.regmap_write_ret ≠ (0 : Int) by omega)]

/-- Witness for amended C2: read succeeds with 0b11, the default-rate write
fails with -5, and the probe returns `-EINVAL`. -/
theorem i2c_probe_default_rate_failure_fatal_witness :
    (0 : Int) ≤ 0 ∧ (-5 : Int) < 0 ∧
    (xclockdac_i2c_probe ⟨0, 0b00000011, -5⟩).2 = -EINVAL :=
  ⟨by decide, by decide,
   i2c_probe_default_rate_failure_fatal ⟨0, 0b00000011, -5⟩ (by decide)
     (by decide)⟩

/-- Claim C3: every requested frequency absent from the rate table makes
`xclockdac_set_rate` fail with `-EINVAL`, issue no register write, and leave
the driver state — hence the recalculated current rate — unchanged, for any
transport behavior. -/
theorem set_rate_rejects_untabled_rate :
    ∀ rate : Nat, findRate xclockdac_rates rate = none →
      ∀ (d : Drvdata) (wret : Int),
        xclockdac_set_rate d rate wret = ⟨d, -EINVAL, []⟩ ∧
        xclockdac_recalc_rate (xclockdac_set_rate d rate wret).drv =
          xclockdac_recalc_rate d := by
  intro rate h d wret
  have hs : xclockdac_set_rate d rate wret = ⟨d, -EINVAL, []⟩ := by
    simp only [xclockdac_set_rate, h]
  exact ⟨hs, by rw [hs]⟩

/-- Witness for C3: 45000 is not a table entry; from shadow 0b11 (44100),
`set_rate 45000` returns `-EINVAL` with no write and the current rate stays
44100. -/
theorem set_rate_rejects_untabled_rate_witness :
    findRate xclockdac_rates 45000 = none ∧
    xclockdac_set_rate ⟨0b00000011⟩ 45000 (-5) = ⟨⟨0b00000011⟩, -EINVAL, []⟩ ∧
    xclockdac_recalc_rate (xclockdac_set_rate ⟨0b00000011⟩ 45000 (-5)).drv =
      xclockdac_recalc_rate ⟨0b00000011⟩ :=
  ⟨by decide,
   (set_rate_rejects_untabled_rate 45000 (by decide) ⟨0b00000011⟩ (-5)).1,
   (set_rate_rejects_untabled_rate 45000 (by decide) ⟨0b00000011⟩ (-5)).2⟩

/-- Claim C8, counterexample: with the device-tree node and i2s-controller
node present and card registration succeeding, a transiently unavailable
clock provider (`devm_clk_get` failing with `-EPROBE_DEFER`) makes
`snd_rpi_xclockdac_probe` return the permanent `-ENODEV`, not the transient
`-EPROBE_DEFER` — so not every missing-dependency condition defers. -/
theorem machine_probe_clk_not_ready_is_permanent_cex :
    SndRpiXclockdac.snd_rpi_xclockdac_probe
        ⟨true, true, 0, some (-EPROBE_DEFER)⟩ = -ENODEV ∧
    (-ENODEV : Int) ≠ -EPROBE_DEFER := by
  decide

/-- Claim C8 as amended: a missing i2s-controller node defers the probe
(`-EPROBE_DEFER`), and a deferred card registration is propagated as
`-EPROBE_DEFER`; but a clock-provider lookup failure — whatever its error,
transient or not — is returned as the permanent `-ENODEV`. -/
theorem machine_probe_dependency_results :
    (∀ env : SndRpiXclockdac.ProbeEnv,
      env.of_node = true → env.i2s_node = false →
      SndRpiXclockdac.snd_rpi_xclockdac_probe env = -EPROBE_DEFER) ∧
    (∀ env : SndRpiXclockdac.ProbeEnv,
      env.i2s_node = true → env.register_card_ret = -EPROBE_DEFER →
      SndRpiXclockdac.snd_rpi_xclockdac_probe env = -EPROBE_DEFER) ∧
    (∀ (env : SndRpiXclockdac.ProbeEnv) (e : Int),
      env.of_node = true → env.i2s_node = true → env.register_card_ret = 0 →
      env.clk_get_err = some e →
      SndRpiXclockdac.snd_rpi_xclockdac_probe env = -ENODEV) := by
  refine ⟨?_, ?_, ?_⟩
  · intro env h1 h2
    simp [SndRpiXclockdac.snd_rpi_xclockdac_probe, h1, h2]
  · intro env h1 h2
    simp [SndRpiXclockdac.snd_rpi_xclockdac_probe, h1, h2, EPROBE_DEFER]
  · intro env e h1 h2 h3 h4
    simp [SndRpiXclockdac.snd_rpi_xclockdac_probe, h1, h2, h3, h4,
      EPROBE_DEFER]

/-- Witness for amended C8: concrete environments for each of the three
branches — missing i2s node defers, deferred card registration defers, and a
clock-get failure (here the transient `-EPROBE_DEFER`) yields `-ENODEV`. -/
theorem machine_probe_dependency_results_witness :
    SndRpiXclockdac.snd_rpi_xclockdac_probe ⟨true, false, 0, none⟩ =
      -EPROBE_DEFER ∧
    SndRpiXclockdac.snd_rpi_xclockdac_probe ⟨true, true, -EPROBE_DEFER, none⟩ =
      -EPROBE_DEFER ∧
    SndRpiXclockdac.snd_rpi_xclockdac_probe
        ⟨true, true, 0, some (-EPROBE_DEFER)⟩ = -ENODEV :=
  ⟨machine_probe_dependency_results.1 ⟨true, false, 0, none⟩ rfl rfl,
   machine_probe_dependency_results.2.1 ⟨true, true, -EPROBE_DEFER, none⟩ rfl
     rfl,
   machine_probe_dependency_results.2.2 ⟨true, true, 0, some (-EPROBE_DEFER)⟩
     (-EPROBE_DEFER) rfl rfl rfl rfl⟩

/-- Claim C9: the rate constraint installed at stream open — by the machine
driver's startup and by the codec DAI's startup — is exactly the 8 table
frequencies of the clock driver's rate table, no more, no fewer. -/
theorem stream_open_constraint_exactly_table :
    SndRpiXclockdac.snd_rpi_xclockdac_startup.1 = tableFreqs ∧
    Tda1541a.tda1541a_startup.1 = tableFreqs ∧
    tableFreqs = [11025, 22050, 44100, 48000, 88200, 96000, 176400, 192000] ∧
    tableFreqs.Nodup := by
  decide

/-- Claim C10: `tda1541a_hw_params` rejects every sample width other than 16
bits with `-EINVAL` and accepts width 16 with return 0, matching the DAI's
advertised formats (S16_LE only) — a stream can never start with a 24- or
32-bit frame format. -/
theorem hw_params_rejects_non_16bit :
    (∀ (p : Tda1541a.Tda1541aPrivate) (rate w : Nat), w ≠ 16 →
      (Tda1541a.tda1541a_hw_params p rate w).2 = -EINVAL) ∧
    (∀ (p : Tda1541a.Tda1541aPrivate) (rate : Nat),
      (Tda1541a.tda1541a_hw_params p rate 16).2 = 0) ∧
    Tda1541a.tda1541a_formats_width_bits = [16] := by
  refine ⟨?_, ?_, rfl⟩
  · intro p rate w hw
    simp [Tda1541a.tda1541a_hw_params, hw]
  · intro p rate
    simp [Tda1541a.tda1541a_hw_params]

/-- Witness for C10: the 24- and 32-bit widths are rejected with `-EINVAL`
and the 16-bit width is accepted. -/
theorem hw_params_rejects_non_16bit_witness :
    (Tda1541a.tda1541a_hw_params ⟨0⟩ 44100 24).2 = -EINVAL ∧
    (Tda1541a.tda1541a_hw_params ⟨0⟩ 44100 32).2 = -EINVAL ∧
    (Tda1541a.tda1541a_hw_params ⟨0⟩ 44100 16).2 = 0 :=
  ⟨hw_params_rejects_non_16bit.1 ⟨0⟩ 44100 24 (by decide),
   hw_params_rejects_non_16bit.1 ⟨0⟩ 44100 32 (by decide),
   hw_params_rejects_non_16bit.2.1 ⟨0⟩ 44100⟩
